import Mathlib

/-
A shallow embedding of the desktop application shell of the dioxus repository:
the App driver and its window registry together with the IPC message handlers
(packages/desktop/src/app.rs) and the hot-reload transport read loop
(packages/hot-reload/src/lib.rs).

Conventions of the embedding:
- window identities (tao WindowId) are Nat;
- the HashMap registry is an association list with distinct keys; HashMap::remove
  is List.filter on the key, HashMap::get is List.find?;
- a Rust panic (unwrap of None) is embedded as an Option.none result of the
  handler: a handler returning none models a process abort;
- platform side effects (hiding a window, logging, opening a browser, sending
  proxy events, setting visibility) are recorded in an explicit effect trace;
- mutation flushes (send_edits) and render passes are counted inside the state,
  so "flushes exactly once" is visible as a counter increment.
-/

/-- JSON values, mirroring the serde_json values carried in IpcMessage params. -/
inductive Json where
  | null : Json
  | bool (b : Bool) : Json
  | num (n : Int) : Json
  | str (s : String) : Json
  | arr (items : List Json) : Json
  | obj (fields : List (String × Json)) : Json

/-- A template of the reactive runtime, identified by its name (dioxus_core::Template). -/
structure Template where
  name : String
  body : Nat
deriving DecidableEq

/-- The hot-reload protocol message (packages/hot-reload/src/lib.rs, HotReloadMsg). -/
inductive HotReloadMsg where
  | UpdateTemplate (t : Template)
  | UpdateAsset (path : String)
  | Shutdown
deriving DecidableEq

/-- Modelled from the spec: a query result keyed by request id, as delivered over
the query channel of a desktop context (QueryResult lives in query.rs, outside
the reviewed sources). -/
structure QueryResult where
  id : Nat
  data : String
deriving DecidableEq

/-- The payload variants of a decoded UI event that handle_user_event_msg
distinguishes (dioxus_html EventData as matched in app.rs): a mounted
placeholder, a drag payload that may report files, or anything else. -/
inductive EventData where
  | mounted
  | drag (hasFiles : Bool)
  | other (tag : Nat)
deriving DecidableEq

/-- Modelled from the spec: the serialized UI event shape (HtmlEvent of
dioxus-html, outside the reviewed sources) with the four fields destructured by
handle_user_event_msg. -/
structure HtmlEvent where
  element : Nat
  name : String
  bubbles : Bool
  data : EventData
deriving DecidableEq

/-- The native file-drop record kept in a desktop context (wry FileDropEvent). -/
inductive FileDropEvent where
  | hovered (paths : List String)
  | dropped (paths : List String)
  | cancelled
deriving DecidableEq

/-- The payload actually fed to the runtime when an event is replayed: a
synthesized upload form, a rehydrated desktop element, a rehydrated file-drag
payload, or the raw decoded data passed through by into_any. -/
inductive EventPayload where
  | uploadForm (files : List String)
  | desktopElement (element : Nat)
  | fileDrag (files : List String)
  | raw (data : EventData)
deriving DecidableEq

/-- One call of dom.handle_event: name, target element, bubbles flag, payload. -/
structure ReplayedEvent where
  name : String
  element : Nat
  bubbles : Bool
  payload : EventPayload
deriving DecidableEq

/-- The observable state of one reactive-runtime handle (the VirtualDom of
dioxus-core, outside the reviewed sources): its template table, the events fed
to it in order, and counters for render_immediate, rebuild and poll passes. -/
structure VirtualDom where
  templates : List (String × Nat)
  handledEvents : List ReplayedEvent
  renderCount : Nat
  rebuildCount : Nat
  pollCount : Nat
deriving DecidableEq

/-- The per-window desktop context: delivered query results, the count of
mutation flushes (send_edits), the count of stylesheet kicks, and the most
recent native file-hover event. -/
structure DesktopContext where
  queryResults : List QueryResult
  editsSent : Nat
  stylesheetKicks : Nat
  fileHover : Option FileDropEvent
deriving DecidableEq

/-- A render-surface instance: one runtime handle plus one desktop context. -/
structure WebviewInstance where
  dom : VirtualDom
  desktop_context : DesktopContext
deriving DecidableEq

/-- The event-loop control flow flag (tao ControlFlow). -/
inductive ControlFlow where
  | wait
  | poll
  | exit
deriving DecidableEq

/-- The process-wide close behaviour (config.rs WindowCloseBehaviour). -/
inductive WindowCloseBehaviour where
  | LastWindowExitsApp
  | LastWindowHides
  | CloseWindow
deriving DecidableEq

/-- Platform side effects requested by the handlers, recorded as a trace. -/
inductive Effect where
  | hideWindow (id : Nat)
  | logError (msg : String)
  | browserOpen (href : String)
  | setVisible (id : Nat) (visible : Bool)
  | sendPollEvent (id : Nat)
deriving DecidableEq

/-- The App driver state (app.rs struct App): control flow flag, close
behaviour, deferred initial visibility, and the window registry. -/
structure App where
  control_flow : ControlFlow
  window_behavior : WindowCloseBehaviour
  is_visible_before_start : Bool
  webviews : List (Nat × WebviewInstance)
deriving DecidableEq

/-- HashMap::get on the registry: the instance stored under the identity. -/
def findWindow (ws : List (Nat × WebviewInstance)) (id : Nat) : Option WebviewInstance :=
  (ws.find? (fun p => p.1 == id)).map Prod.snd

/-- HashMap::remove on the registry. -/
def removeWindow (ws : List (Nat × WebviewInstance)) (id : Nat) : List (Nat × WebviewInstance) :=
  ws.filter (fun p => p.1 != id)

/-- HashMap::get_mut followed by writing the updated instance back. -/
def setWindow (ws : List (Nat × WebviewInstance)) (id : Nat) (v : WebviewInstance) :
    List (Nat × WebviewInstance) :=
  ws.map (fun p => if p.1 == id then (p.1, v) else p)

/-- dom.handle_event: feed one event to the runtime. -/
def VirtualDom.handle_event (d : VirtualDom) (e : ReplayedEvent) : VirtualDom :=
  { d with handledEvents := d.handledEvents ++ [e] }

/-- dom.render_immediate: one non-yielding render pass. -/
def VirtualDom.render_immediate (d : VirtualDom) : VirtualDom :=
  { d with renderCount := d.renderCount + 1 }

/-- dom.rebuild: the full initial rebuild performed on initialization. -/
def VirtualDom.rebuild (d : VirtualDom) : VirtualDom :=
  { d with rebuildCount := d.rebuildCount + 1 }

/-- Modelled from the spec: replace_template of the external reactive runtime
(dioxus-core, outside the reviewed sources) updates the template table in
place, keyed by template name, without touching any other runtime state. -/
def VirtualDom.replace_template (d : VirtualDom) (t : Template) : VirtualDom :=
  { d with templates :=
      if d.templates.any (fun p => p.1 == t.name) then
        d.templates.map (fun p => if p.1 == t.name then (p.1, t.body) else p)
      else
        d.templates ++ [(t.name, t.body)] }

/-- desktop_context.send_edits: flush pending mutations to the embedded engine. -/
def DesktopContext.send_edits (c : DesktopContext) : DesktopContext :=
  { c with editsSent := c.editsSent + 1 }

/-- Modelled from the spec: poll resumes the outstanding asynchronous work of
the runtime exactly once and flushes any produced mutations
(WebviewInstance::poll_vdom lives in webview.rs, outside the reviewed sources). -/
def WebviewInstance.poll_vdom (w : WebviewInstance) : WebviewInstance :=
  { w with dom := { w.dom with pollCount := w.dom.pollCount + 1 } }

/-- Modelled from the spec: kick_stylsheets notifies the embedded engine to
reload style references without reconstructing the instance
(webview.rs, outside the reviewed sources). -/
def WebviewInstance.kick_stylsheets (w : WebviewInstance) : WebviewInstance :=
  { w with desktop_context :=
      { w.desktop_context with stylesheetKicks := w.desktop_context.stylesheetKicks + 1 } }

/-- App::handle_close_requested (app.rs lines 130-152). -/
def App.handle_close_requested (s : App) (id : Nat) : App × List Effect :=
  match s.window_behavior with
  | .LastWindowExitsApp =>
      let webviews := removeWindow s.webviews id
      (if webviews.isEmpty then
        { s with webviews := webviews, control_flow := .exit }
      else
        { s with webviews := webviews }, [])
  | .LastWindowHides =>
      match findWindow s.webviews id with
      | none => (s, [])
      | some _ => (s, [.hideWindow id])
  | .CloseWindow =>
      ({ s with webviews := removeWindow s.webviews id }, [])

/-- App::window_destroyed (app.rs lines 154-164). -/
def App.window_destroyed (s : App) (id : Nat) : App :=
  let webviews := removeWindow s.webviews id
  if s.window_behavior = .LastWindowExitsApp ∧ webviews.isEmpty then
    { s with webviews := webviews, control_flow := .exit }
  else
    { s with webviews := webviews }

/-- App::handle_close_msg (app.rs lines 210-215): remove and exit when the
registry became empty, with no consultation of window_behavior. -/
def App.handle_close_msg (s : App) (id : Nat) : App :=
  let webviews := removeWindow s.webviews id
  if webviews.isEmpty then
    { s with webviews := webviews, control_flow := .exit }
  else
    { s with webviews := webviews }

/-- App::poll_vdom (app.rs lines 340-346): a stale identity is a no-op. -/
def App.poll_vdom (s : App) (id : Nat) : App :=
  match findWindow s.webviews id with
  | none => s
  | some view => { s with webviews := setWindow s.webviews id view.poll_vdom }

/-- App::handle_initialize_msg (app.rs lines 192-205). The registry lookup is
unwrapped: a stale identity aborts the process, embedded as none. -/
def App.handle_initialize_msg (s : App) (id : Nat) : Option (App × List Effect) :=
  match findWindow s.webviews id with
  | none => none
  | some view =>
      let view2 := { view with
        dom := view.dom.rebuild,
        desktop_context := view.desktop_context.send_edits }
      some ({ s with webviews := setWindow s.webviews id view2 },
            [.setVisible id s.is_visible_before_start, .sendPollEvent id])

/-- One close-request or destroy-notification, as observed by the driver. -/
inductive CloseOp where
  | closeRequested (id : Nat)
  | destroyed (id : Nat)
deriving DecidableEq

/-- Apply one lifecycle transition to the driver state. -/
def applyCloseOp (s : App) : CloseOp → App
  | .closeRequested id => (s.handle_close_requested id).1
  | .destroyed id => s.window_destroyed id

/-- Run a sequence of close-requests and destroy-notifications in order. -/
def runCloseOps (s : App) : List CloseOp → App
  | [] => s
  | op :: rest => runCloseOps (applyCloseOp s op) rest

-- Sample states used by witnesses and counterexamples.

/-- A fresh runtime handle with one template named a. -/
def dom0 : VirtualDom :=
  { templates := [("a", 0)], handledEvents := [], renderCount := 0
    rebuildCount := 0, pollCount := 0 }

/-- A desktop context with no recorded file hover. -/
def ctx0 : DesktopContext :=
  { queryResults := [], editsSent := 0, stylesheetKicks := 0, fileHover := none }

/-- A basic render-surface instance. -/
def view0 : WebviewInstance := { dom := dom0, desktop_context := ctx0 }

/-- A driver state with an empty registry under LastWindowExitsApp. -/
def app0 : App :=
  { control_flow := .wait, window_behavior := .LastWindowExitsApp
    is_visible_before_start := true, webviews := [] }

/-- A driver state with one window (identity 1) under LastWindowExitsApp. -/
def app1 : App :=
  { control_flow := .wait, window_behavior := .LastWindowExitsApp
    is_visible_before_start := true, webviews := [(1, view0)] }

-- Registry lemmas.

/-- After removing an identity, looking it up in the registry fails. -/
theorem findWindow_removeWindow (ws : List (Nat × WebviewInstance)) (id : Nat) :
    findWindow (removeWindow ws id) id = none := by
  induction ws with
  | nil => rfl
  | cons p rest ih =>
      by_cases h : p.1 = id <;>
        simp [removeWindow, findWindow, List.filter_cons, List.find?_cons, h]

/-- Removing from an empty registry yields an empty registry. -/
theorem removeWindow_nil (id : Nat) : removeWindow [] id = [] := rfl

/-- Looking up an identity in a registry mapped entry-wise finds the mapped
instance. -/
theorem findWindow_mapEntries (ws : List (Nat × WebviewInstance))
    (g : WebviewInstance → WebviewInstance) (id : Nat) :
    findWindow (ws.map (fun p => (p.1, g p.2))) id = (findWindow ws id).map g := by
  induction ws with
  | nil => rfl
  | cons p rest ih =>
      by_cases h : p.1 = id
      · simp [findWindow, List.find?_cons, h]
      · simpa [findWindow, List.find?_cons, h] using ih

/-- Mapping the registry entry-wise preserves the identity column. -/
theorem keys_mapEntries (ws : List (Nat × WebviewInstance))
    (g : WebviewInstance → WebviewInstance) :
    (ws.map (fun p => (p.1, g p.2))).map Prod.fst = ws.map Prod.fst := by
  induction ws with
  | nil => rfl
  | cons p rest ih => simp [ih]

-- JSON helpers matching the serde_json API used in app.rs.

/-- serde_json Value::as_object. -/
def Json.as_object : Json → Option (List (String × Json))
  | .obj fields => some fields
  | _ => none

/-- serde_json Value::as_str. -/
def Json.as_str : Json → Option String
  | .str s => some s
  | _ => none

/-- serde_json map indexing as used by temp[href] after a contains_key check:
the value stored under the key, or null when absent. -/
def jsonIndex (fields : List (String × Json)) (key : String) : Json :=
  match fields.find? (fun p => p.1 == key) with
  | some p => p.2
  | none => .null

/-- serde_json Map::contains_key. -/
def jsonContainsKey (fields : List (String × Json)) (key : String) : Bool :=
  fields.any (fun p => p.1 == key)

/-- Collect a JSON array of strings, failing on any non-string element. -/
def jsonStrings : List Json → Option (List String)
  | [] => some []
  | .str s :: rest => (jsonStrings rest).map (fun r => s :: r)
  | _ => none

/-- Modelled from the spec: deserialization of the data field of a serialized
UI event into the variants handle_user_event_msg distinguishes (the serde
format of dioxus-html event data is outside the reviewed sources). -/
def parseEventData : Json → Option EventData
  | .str "mounted" => some .mounted
  | .obj [("drag_has_files", .bool b)] => some (.drag b)
  | .num n => some (.other n.toNat)
  | _ => none

/-- Modelled from the spec: deserialization of user_event params into a
serialized UI event with element, name, bubbles and data fields (HtmlEvent of
dioxus-html, outside the reviewed sources). -/
def parseHtmlEvent : Json → Option HtmlEvent
  | .obj [("element", .num el), ("name", .str n), ("bubbles", .bool b), ("data", d)] =>
      (parseEventData d).map (fun data => { element := el.toNat, name := n, bubbles := b, data := data })
  | _ => none

/-- Modelled from the spec: deserialization of query params into a query result
keyed by request id (QueryResult of query.rs, outside the reviewed sources). -/
def parseQueryResult : Json → Option QueryResult
  | .obj [("id", .num n), ("data", .str d)] => some { id := n.toNat, data := d }
  | _ => none

/-- A file-dialog request: target element id, event name, bubbles flag and the
chosen file paths (FileDialogRequest of file_upload.rs, outside the reviewed
sources; shape taken from the spec wire contract). -/
structure FileDialogRequest where
  target : Nat
  event : String
  bubbles : Bool
  files : List String
deriving DecidableEq

/-- Modelled from the spec: deserialization of file_dialog params into a
FileDialogRequest. -/
def parseFileDialogRequest : Json → Option FileDialogRequest
  | .obj [("target", .num t), ("event", .str e), ("bubbles", .bool b), ("files", .arr fs)] =>
      (jsonStrings fs).map (fun files => { target := t.toNat, event := e, bubbles := b, files := files })
  | _ => none

/-- Modelled from the spec: get_file_event extracts the chosen file paths used
to construct the synthetic upload-form payload (file_upload.rs, outside the
reviewed sources). -/
def FileDialogRequest.get_file_event (r : FileDialogRequest) : List String :=
  r.files

/-- App::handle_browser_open (app.rs lines 178-187). The openOk flag models the
outcome of the external webbrowser::open call. The as_str unwrap aborts the
process when the href value is not a string, embedded as none. -/
def App.handle_browser_open (s : App) (params : Json) (openOk : Bool) :
    Option (App × List Effect) :=
  match params.as_object with
  | none => some (s, [])
  | some temp =>
      if jsonContainsKey temp "href" then
        match (jsonIndex temp "href").as_str with
        | none => none
        | some href =>
            if openOk then some (s, [.browserOpen href])
            else some (s, [.browserOpen href, .logError "Open Browser error"])
      else some (s, [])

/-- App::handle_query_msg (app.rs lines 217-227): a parse failure or a stale
identity silently returns; otherwise the result is sent on the query channel. -/
def App.handle_query_msg (s : App) (params : Json) (id : Nat) : App :=
  match parseQueryResult params with
  | none => s
  | some result =>
      match findWindow s.webviews id with
      | none => s
      | some view =>
          let view2 := { view with desktop_context := { view.desktop_context with
              queryResults := view.desktop_context.queryResults ++ [result] } }
          { s with webviews := setWindow s.webviews id view2 }

/-- App::handle_user_event_msg (app.rs lines 229-276). A parse failure is
logged and dropped; the registry lookup and the file-hover lookup are
unwrapped, so a stale identity, or a files-reporting drag payload with no
recorded hover, aborts the process (none). -/
def App.handle_user_event_msg (s : App) (params : Json) (id : Nat) :
    Option (App × List Effect) :=
  match parseHtmlEvent params with
  | none => some (s, [.logError "Error parsing user_event"])
  | some evt =>
      match findWindow s.webviews id with
      | none => none
      | some view =>
          let recent_file := view.desktop_context.fileHover
          let payloadOpt : Option EventPayload :=
            match evt.data with
            | .mounted => some (.desktopElement evt.element)
            | .drag hasFiles =>
                if hasFiles then
                  match recent_file with
                  | none => none
                  | some file_event =>
                      some (.fileDrag (match file_event with
                        | .hovered paths => paths
                        | .dropped paths => paths
                        | .cancelled => []))
                else some (.raw (.drag hasFiles))
            | .other tag => some (.raw (.other tag))
          match payloadOpt with
          | none => none
          | some payload =>
              let view2 := { view with
                dom := (view.dom.handle_event
                  { name := evt.name, element := evt.element
                    bubbles := evt.bubbles, payload := payload }).render_immediate,
                desktop_context := view.desktop_context.send_edits }
              some ({ s with webviews := setWindow s.webviews id view2 }, [])

/-- The body of the UpdateTemplate for-loop in handle_hot_reload_msg: the
runtime of the webview gets the template replaced, then the webview is polled. -/
def hotReloadTemplate (t : Template) (w : WebviewInstance) : WebviewInstance :=
  WebviewInstance.poll_vdom { w with dom := w.dom.replace_template t }

/-- App::handle_hot_reload_msg (app.rs lines 284-302): UpdateTemplate replaces
the template in the runtime of every live webview and polls each; Shutdown
exits; UpdateAsset kicks stylesheets of every live webview. -/
def App.handle_hot_reload_msg (s : App) (msg : HotReloadMsg) : App :=
  match msg with
  | .UpdateTemplate t =>
      { s with webviews := s.webviews.map (fun p => (p.1, hotReloadTemplate t p.2)) }
  | .Shutdown => { s with control_flow := .exit }
  | .UpdateAsset _ =>
      { s with webviews := s.webviews.map (fun p => (p.1, p.2.kick_stylsheets)) }

/-- App::handle_file_dialog_msg (app.rs lines 304-333). A parse failure
silently returns; the registry lookup is unwrapped (stale identity aborts);
a change&input event name fans out to input then change before one render and
one flush. -/
def App.handle_file_dialog_msg (s : App) (params : Json) (window : Nat) :
    Option (App × List Effect) :=
  match parseFileDialogRequest params with
  | none => some (s, [])
  | some file_dialog =>
      let id := file_dialog.target
      let event_name := file_dialog.event
      let event_bubbles := file_dialog.bubbles
      let files := file_dialog.get_file_event
      let data := EventPayload.uploadForm files
      match findWindow s.webviews window with
      | none => none
      | some view =>
          let dom :=
            if event_name = "change&input" then
              (view.dom.handle_event
                { name := "input", element := id, bubbles := event_bubbles, payload := data }).handle_event
                { name := "change", element := id, bubbles := event_bubbles, payload := data }
            else
              view.dom.handle_event
                { name := event_name, element := id, bubbles := event_bubbles, payload := data }
          let view2 := { view with
            dom := dom.render_immediate,
            desktop_context := view.desktop_context.send_edits }
          some ({ s with webviews := setWindow s.webviews window view2 }, [])

-- The hot-reload transport read loop (packages/hot-reload/src/lib.rs, connect).

/-- The kind of an I/O error returned by read_line. -/
inductive IOErrorKind where
  | wouldBlock
  | other (code : Nat)
deriving DecidableEq

/-- One outcome of buf_reader.read_line: success carries the buffer content
(empty at end of stream, where read_line returns Ok(0)); failure carries the
error kind and whatever partial content was placed in the buffer. -/
inductive ReadOutcome where
  | success (buf : String)
  | failure (kind : IOErrorKind) (buf : String)
deriving DecidableEq

/-- The observable result of one iteration of the read loop: the loop either
breaks (the thread function returns) or continues, possibly delivering a parsed
message to the callback and possibly logging a parse failure. -/
inductive StepResult where
  | terminated
  | continued (delivered : Option HotReloadMsg) (logged : Bool)
deriving DecidableEq

/-- One iteration of the connect read loop (hot-reload lib.rs lines 43-60),
parameterized by the line deserializer: a read error of a kind other than
WouldBlock breaks the loop; otherwise the buffer is parsed, a parse failure is
logged and the loop continues, and a parsed message is delivered. -/
def loopStep (parseLine : String → Option HotReloadMsg) (r : ReadOutcome) : StepResult :=
  match r with
  | .failure kind buf =>
      if kind ≠ .wouldBlock then .terminated
      else
        match parseLine buf with
        | none => .continued none true
        | some msg => .continued (some msg) false
  | .success buf =>
      match parseLine buf with
      | none => .continued none true
      | some msg => .continued (some msg) false

/-- A line deserializer that accepts nothing, used as a concrete instance. -/
def rejectAllLines : String → Option HotReloadMsg := fun _ => none

-- Additional sample states.

/-- A driver state with one window (identity 1) under LastWindowHides. -/
def appHide : App :=
  { control_flow := .wait, window_behavior := .LastWindowHides
    is_visible_before_start := true, webviews := [(1, view0)] }

/-- A well-formed user_event params value: a click on element 1. -/
def clickParams : Json :=
  .obj [("element", .num 1), ("name", .str "click"), ("bubbles", .bool true), ("data", .num 0)]

-- Lifecycle lemmas.

/-- Removing an identity from an empty registry keeps it empty. -/
theorem removeWindow_isEmpty (ws : List (Nat × WebviewInstance)) (id : Nat)
    (h : ws.isEmpty = true) : (removeWindow ws id).isEmpty = true := by
  cases ws with
  | nil => rfl
  | cons p rest => simp at h

/-- Neither close-requests nor destroy-notifications change the close policy. -/
theorem applyCloseOp_behavior (s : App) (op : CloseOp) :
    (applyCloseOp s op).window_behavior = s.window_behavior := by
  cases op with
  | closeRequested id =>
      simp only [applyCloseOp, App.handle_close_requested]
      split <;> (try split) <;> simp
  | destroyed id =>
      simp only [applyCloseOp, App.window_destroyed]
      split <;> simp

/-- After one transition under LastWindowExitsApp, the control flow flag equals
exit exactly when the registry came out empty, provided the flag could only
have been exit with an already empty registry. -/
theorem closeOp_exit_iff (s : App) (op : CloseOp)
    (hb : s.window_behavior = .LastWindowExitsApp)
    (hq : s.control_flow = .exit → s.webviews.isEmpty = true) :
    ((applyCloseOp s op).control_flow = .exit ↔ (applyCloseOp s op).webviews.isEmpty = true) := by
  cases op with
  | closeRequested id =>
      simp only [applyCloseOp, App.handle_close_requested, hb]
      by_cases h : (removeWindow s.webviews id).isEmpty = true
      · simp [h]
      · simp [h]
        intro hcf
        exact absurd (removeWindow_isEmpty s.webviews id (hq hcf)) h
  | destroyed id =>
      simp only [applyCloseOp, App.window_destroyed, hb]
      by_cases h : (removeWindow s.webviews id).isEmpty = true
      · simp [h]
      · simp [h]
        intro hcf
        exact absurd (removeWindow_isEmpty s.webviews id (hq hcf)) h

/-- The exit-iff-empty property holds after every nonempty run of close
transitions, starting from any state whose flag can only be exit with an empty
registry. -/
theorem runCloseOps_exit_iff (ops : List CloseOp) :
    ∀ s : App, s.window_behavior = .LastWindowExitsApp →
      (s.control_flow = .exit → s.webviews.isEmpty = true) → ops ≠ [] →
      ((runCloseOps s ops).control_flow = .exit ↔
        (runCloseOps s ops).webviews.isEmpty = true) := by
  induction ops with
  | nil => intro s _ _ hne; exact absurd rfl hne
  | cons op rest ih =>
      intro s hb hq _
      cases rest with
      | nil => simpa [runCloseOps] using closeOp_exit_iff s op hb hq
      | cons op2 rest2 =>
          have hb2 : (applyCloseOp s op).window_behavior = .LastWindowExitsApp := by
            rw [applyCloseOp_behavior]; exact hb
          exact ih (applyCloseOp s op) hb2 (fun h => (closeOp_exit_iff s op hb hq).mp h)
            (by simp)

/-- Claim C2: under WindowCloseBehaviour.LastWindowExitsApp, for every sequence
of handle_close_requested and window_destroyed calls, the control-flow flag is
exit immediately after a call iff the registry is empty right after that call,
and it is never exit while the registry is non-empty. -/
theorem claim_C2_exit_iff_empty (s : App) (ops : List CloseOp)
    (hb : s.window_behavior = .LastWindowExitsApp)
    (hcf : s.control_flow ≠ .exit) (hne : ops ≠ []) :
    ((runCloseOps s ops).control_flow = .exit ↔
      (runCloseOps s ops).webviews.isEmpty = true) :=
  runCloseOps_exit_iff ops s hb (fun h => absurd h hcf) hne

/-- Witness for claim C2 at a concrete input: one window, one close-request. -/
theorem claim_C2_witness :
    app1.window_behavior = .LastWindowExitsApp ∧ app1.control_flow ≠ .exit ∧
    ((runCloseOps app1 [CloseOp.closeRequested 1]).control_flow = .exit ↔
      (runCloseOps app1 [CloseOp.closeRequested 1]).webviews.isEmpty = true) :=
  ⟨rfl, by decide,
    claim_C2_exit_iff_empty app1 [CloseOp.closeRequested 1] rfl (by decide) (by decide)⟩

/-- Claim C6: under WindowCloseBehaviour.LastWindowHides, a close-request for a
registered identity leaves the whole driver state unchanged (registry entries
untouched, control flow not set to exit) and requests a platform hide of that
window only. -/
theorem claim_C6_hide_keeps_registry (s : App) (id : Nat) (view : WebviewInstance)
    (hb : s.window_behavior = .LastWindowHides)
    (hw : findWindow s.webviews id = some view) :
    s.handle_close_requested id = (s, [Effect.hideWindow id]) := by
  simp [App.handle_close_requested, hb, hw]

/-- Witness for claim C6 at a concrete input. -/
theorem claim_C6_witness :
    appHide.handle_close_requested 1 = (appHide, [Effect.hideWindow 1]) :=
  claim_C6_hide_keeps_registry appHide 1 view0 rfl rfl

/-- Claim C9: handle_close_msg removes the addressed identity and sets the
control flow flag to exit exactly when the registry is empty afterwards; it
never consults window_behavior, so this holds under every behaviour including
LastWindowHides. -/
theorem claim_C9_close_msg_always_exits (s : App) (id : Nat) :
    findWindow (s.handle_close_msg id).webviews id = none ∧
    ((s.handle_close_msg id).webviews.isEmpty = true →
      (s.handle_close_msg id).control_flow = .exit) ∧
    ((s.handle_close_msg id).webviews.isEmpty = false →
      (s.handle_close_msg id).control_flow = s.control_flow) ∧
    (∀ b : WindowCloseBehaviour,
      App.handle_close_msg { s with window_behavior := b } id =
        { s.handle_close_msg id with window_behavior := b }) := by
  have hw : (s.handle_close_msg id).webviews = removeWindow s.webviews id := by
    by_cases h : (removeWindow s.webviews id).isEmpty = true <;>
      simp [App.handle_close_msg, h]
  refine ⟨?_, ?_, ?_, ?_⟩
  · rw [hw]; exact findWindow_removeWindow s.webviews id
  · intro h
    rw [hw] at h
    simp [App.handle_close_msg, h]
  · intro h
    rw [hw] at h
    simp [App.handle_close_msg, h]
  · intro b
    by_cases h : (removeWindow s.webviews id).isEmpty = true <;>
      simp [App.handle_close_msg, h]

/-- Witness for claim C9 at a concrete input: closing the only window under
LastWindowHides still exits. -/
theorem claim_C9_witness :
    (appHide.handle_close_msg 1).webviews.isEmpty = true ∧
    (appHide.handle_close_msg 1).control_flow = .exit :=
  ⟨by decide, (claim_C9_close_msg_always_exits appHide 1).2.1 (by decide)⟩

/-- Counterexample to claim C1 as stated: an initialize IPC event addressed to
an identity absent from the registry is not silently ignored; the registry
lookup is unwrapped and the process aborts, embedded here as the none result. -/
theorem claim_C1_counterexample : app0.handle_initialize_msg 1 = none := rfl

/-- Claim C1 amended: a stale poll or query event is silently ignored with no
state change, but a stale initialize event, and stale user_event or file_dialog
events whose params deserialize, abort the process (none). -/
theorem claim_C1_amended (s : App) (id : Nat)
    (hstale : findWindow s.webviews id = none) :
    s.poll_vdom id = s ∧
    (∀ p, s.handle_query_msg p id = s) ∧
    s.handle_initialize_msg id = none ∧
    (∀ p evt, parseHtmlEvent p = some evt → s.handle_user_event_msg p id = none) ∧
    (∀ p req, parseFileDialogRequest p = some req → s.handle_file_dialog_msg p id = none) := by
  refine ⟨?_, ?_, ?_, ?_, ?_⟩
  · simp [App.poll_vdom, hstale]
  · intro p
    cases hp : parseQueryResult p <;> simp [App.handle_query_msg, hp, hstale]
  · simp [App.handle_initialize_msg, hstale]
  · intro p evt hp
    simp [App.handle_user_event_msg, hp, hstale]
  · intro p req hp
    simp [App.handle_file_dialog_msg, hp, hstale]

/-- Witness for claim C1 amended at a concrete input: the empty registry. -/
theorem claim_C1_witness :
    app0.poll_vdom 1 = app0 ∧
    app0.handle_query_msg Json.null 1 = app0 ∧
    app0.handle_user_event_msg clickParams 1 = none :=
  ⟨(claim_C1_amended app0 1 rfl).1,
    (claim_C1_amended app0 1 rfl).2.1 Json.null,
    (claim_C1_amended app0 1 rfl).2.2.2.1 clickParams
      { element := 1, name := "click", bubbles := true, data := .other 0 } rfl⟩

-- Claims C3, C4, C5, C7, C8, C10.

/-- A second runtime handle holding a different body for template a. -/
def domB : VirtualDom :=
  { templates := [("a", 5)], handledEvents := [], renderCount := 0
    rebuildCount := 0, pollCount := 0 }

/-- A second render-surface instance. -/
def viewB : WebviewInstance := { dom := domB, desktop_context := ctx0 }

/-- A driver state with two windows (identities 1 and 2). -/
def appTwo : App :=
  { control_flow := .wait, window_behavior := .LastWindowExitsApp
    is_visible_before_start := true, webviews := [(1, view0), (2, viewB)] }

/-- Counterexample to claim C3 as stated: an UpdateTemplate message is
broadcast to every live instance; with two live instances both template tables
change, so whichever single instance is regarded as targeted, the state of a
non-targeted instance changes as well. -/
theorem claim_C3_counterexample :
    (findWindow appTwo.webviews 1).map (fun w => w.dom.templates) = some [("a", 0)] ∧
    (findWindow appTwo.webviews 2).map (fun w => w.dom.templates) = some [("a", 5)] ∧
    (findWindow (appTwo.handle_hot_reload_msg (.UpdateTemplate ⟨"a", 9⟩)).webviews 1).map
      (fun w => w.dom.templates) = some [("a", 9)] ∧
    (findWindow (appTwo.handle_hot_reload_msg (.UpdateTemplate ⟨"a", 9⟩)).webviews 2).map
      (fun w => w.dom.templates) = some [("a", 9)] :=
  ⟨rfl, rfl, rfl, rfl⟩

/-- Claim C3 amended: an UpdateTemplate hot-reload message never removes,
recreates or discards any live instance (the registry identities are exactly
preserved) and leaves the control flow and close policy unchanged; but it
updates the template table of every live instance and polls each one, not only
a single targeted instance. -/
theorem claim_C3_amended (s : App) (t : Template) :
    (s.handle_hot_reload_msg (.UpdateTemplate t)).webviews.map Prod.fst =
      s.webviews.map Prod.fst ∧
    (s.handle_hot_reload_msg (.UpdateTemplate t)).control_flow = s.control_flow ∧
    (s.handle_hot_reload_msg (.UpdateTemplate t)).window_behavior = s.window_behavior ∧
    (∀ id view, findWindow s.webviews id = some view →
      findWindow (s.handle_hot_reload_msg (.UpdateTemplate t)).webviews id =
        some (WebviewInstance.poll_vdom { view with dom := view.dom.replace_template t })) := by
  refine ⟨?_, rfl, rfl, ?_⟩
  · simp only [App.handle_hot_reload_msg]
    exact keys_mapEntries s.webviews (hotReloadTemplate t)
  · intro id view hv
    simp only [App.handle_hot_reload_msg]
    rw [findWindow_mapEntries s.webviews (hotReloadTemplate t) id, hv]
    rfl

/-- Witness for claim C3 amended at a concrete input: the second window. -/
theorem claim_C3_witness :
    findWindow (appTwo.handle_hot_reload_msg (.UpdateTemplate ⟨"a", 9⟩)).webviews 2 =
      some (WebviewInstance.poll_vdom { viewB with dom := viewB.dom.replace_template ⟨"a", 9⟩ }) :=
  (claim_C3_amended appTwo ⟨"a", 9⟩).2.2.2 2 viewB rfl

/-- Claim C4 evidence: at end of stream, read_line returns Ok(0) leaving the
buffer empty, which is not an error, so the loop does not break; it parses the
empty buffer, fails, logs and continues, so the background thread does not
terminate at end of stream (it keeps re-reading the exhausted stream), in
divergence from the claim. A read error of a kind other than WouldBlock does
break the loop as claimed. -/
theorem claim_C4_eof_does_not_terminate (parseLine : String → Option HotReloadMsg)
    (hp : parseLine "" = none) :
    loopStep parseLine (.success "") = .continued none true ∧
    loopStep parseLine (.success "") ≠ .terminated ∧
    (∀ k buf, k ≠ .wouldBlock → loopStep parseLine (.failure k buf) = .terminated) := by
  refine ⟨?_, ?_, ?_⟩
  · simp [loopStep, hp]
  · simp [loopStep, hp]
  · intro k buf hk
    simp [loopStep, hk]

/-- Witness for claim C4 at a concrete input: the all-rejecting deserializer. -/
theorem claim_C4_witness :
    rejectAllLines "" = none ∧
    loopStep rejectAllLines (.success "") = .continued none true :=
  ⟨rfl, (claim_C4_eof_does_not_terminate rejectAllLines rfl).1⟩

/-- Claim C5: a file_dialog request whose event name is exactly change&input
replays exactly two events, input then change in that order, both to the same
target element with the same bubbles flag and the same synthesized upload
payload; any other event name replays exactly one event; in both cases exactly
one render pass and one mutation flush follow. -/
theorem claim_C5_change_and_input (s : App) (window : Nat) (params : Json)
    (req : FileDialogRequest) (view : WebviewInstance)
    (hp : parseFileDialogRequest params = some req)
    (hw : findWindow s.webviews window = some view) :
    s.handle_file_dialog_msg params window = some
      ({ s with webviews := (setWindow s.webviews window
          { view with
            dom := { view.dom with
              handledEvents := view.dom.handledEvents ++
                (if req.event = "change&input" then
                  [{ name := "input", element := req.target, bubbles := req.bubbles
                     payload := .uploadForm req.get_file_event },
                   { name := "change", element := req.target, bubbles := req.bubbles
                     payload := .uploadForm req.get_file_event }]
                else
                  [{ name := req.event, element := req.target, bubbles := req.bubbles
                     payload := .uploadForm req.get_file_event }]),
              renderCount := view.dom.renderCount + 1 },
            desktop_context := { view.desktop_context with
              editsSent := view.desktop_context.editsSent + 1 } }) }, []) := by
  by_cases he : req.event = "change&input" <;>
    simp [App.handle_file_dialog_msg, hp, hw, he, VirtualDom.handle_event,
      VirtualDom.render_immediate, DesktopContext.send_edits]

/-- A well-formed change&input file_dialog params value. -/
def fileDialogParams : Json :=
  .obj [("target", .num 2), ("event", .str "change&input"), ("bubbles", .bool true),
        ("files", .arr [.str "f.txt"])]

/-- Witness for claim C5 at a concrete input: input then change are replayed to
element 2 with the same payload, then one render and one flush. -/
theorem claim_C5_witness :
    app1.handle_file_dialog_msg fileDialogParams 1 = some
      ({ app1 with webviews := [(1, { view0 with
          dom := { dom0 with
            handledEvents :=
              [{ name := "input", element := 2, bubbles := true, payload := .uploadForm ["f.txt"] },
               { name := "change", element := 2, bubbles := true, payload := .uploadForm ["f.txt"] }],
            renderCount := 1 },
          desktop_context := { ctx0 with editsSent := 1 } })] }, []) :=
  claim_C5_change_and_input app1 1 fileDialogParams
    { target := 2, event := "change&input", bubbles := true, files := ["f.txt"] } view0 rfl rfl

/-- Counterexample to claim C7 as stated: a file_dialog message with
undeserializable params is dropped with an empty effect trace — no log entry is
emitted (and a query message is likewise silently dropped); the claim states
the failure is logged for all three message kinds. -/
theorem claim_C7_counterexample :
    app1.handle_file_dialog_msg (Json.str "bad") 1 = some (app1, []) ∧
    app1.handle_query_msg (Json.str "bad") 1 = app1 :=
  ⟨rfl, rfl⟩

/-- Claim C7 amended: an IPC message whose params fail to deserialize is
dropped before any event replay or mutation flush, leaving the registry and all
instances unchanged and the driver able to process the next event; the failure
is logged only for user_event, while query and file_dialog drop it silently. -/
theorem claim_C7_amended (s : App) (id : Nat) (p1 p2 p3 : Json)
    (h1 : parseHtmlEvent p1 = none) (h2 : parseQueryResult p2 = none)
    (h3 : parseFileDialogRequest p3 = none) :
    s.handle_user_event_msg p1 id = some (s, [.logError "Error parsing user_event"]) ∧
    s.handle_query_msg p2 id = s ∧
    s.handle_file_dialog_msg p3 id = some (s, []) := by
  refine ⟨?_, ?_, ?_⟩
  · simp [App.handle_user_event_msg, h1]
  · simp [App.handle_query_msg, h2]
  · simp [App.handle_file_dialog_msg, h3]

/-- Witness for claim C7 amended at a concrete input. -/
theorem claim_C7_witness :
    app1.handle_user_event_msg Json.null 1 =
      some (app1, [.logError "Error parsing user_event"]) ∧
    app1.handle_query_msg Json.null 1 = app1 ∧
    app1.handle_file_dialog_msg Json.null 1 = some (app1, []) :=
  claim_C7_amended app1 1 Json.null Json.null Json.null rfl rfl rfl

/-- Counterexample to claim C8 as stated: params that carry a non-string href
value make handle_browser_open unwrap a none, aborting the process (none),
while the claim states the handler never aborts for any JSON params. -/
theorem claim_C8_counterexample :
    app0.handle_browser_open (Json.obj [("href", Json.num 5)]) true = none := rfl

/-- The exact condition under which handle_browser_open aborts: params is an
object that contains an href key whose value is not a string. -/
def hrefNonString (params : Json) : Bool :=
  match params.as_object with
  | none => false
  | some temp => jsonContainsKey temp "href" && ((jsonIndex temp "href").as_str).isNone

/-- Claim C8 amended: handle_browser_open never mutates the driver state and
absorbs a failing browser-open by logging it; it aborts the process if and only
if params is an object carrying an href key with a non-string value (for
params that are not objects or lack href it is a silent no-op). -/
theorem claim_C8_amended (s : App) (params : Json) (openOk : Bool) :
    (s.handle_browser_open params openOk = none ↔ hrefNonString params = true) ∧
    (∀ s2 effs, s.handle_browser_open params openOk = some (s2, effs) → s2 = s) ∧
    (∀ temp href, params.as_object = some temp →
      (jsonIndex temp "href").as_str = some href → jsonContainsKey temp "href" = true →
      s.handle_browser_open params false =
        some (s, [.browserOpen href, .logError "Open Browser error"]) ∧
      s.handle_browser_open params true = some (s, [.browserOpen href])) := by
  refine ⟨?_, ?_, ?_⟩
  · cases hobj : params.as_object with
    | none => simp [App.handle_browser_open, hrefNonString, hobj]
    | some temp =>
        by_cases hk : jsonContainsKey temp "href"
        · cases hs : (jsonIndex temp "href").as_str with
          | none => simp [App.handle_browser_open, hrefNonString, hobj, hk, hs]
          | some href =>
              cases openOk <;>
                simp [App.handle_browser_open, hrefNonString, hobj, hk, hs]
        · simp [App.handle_browser_open, hrefNonString, hobj, hk]
  · intro s2 effs h
    cases hobj : params.as_object with
    | none =>
        simp [App.handle_browser_open, hobj] at h
        exact h.1.symm
    | some temp =>
        by_cases hk : jsonContainsKey temp "href"
        · cases hs : (jsonIndex temp "href").as_str with
          | none => simp [App.handle_browser_open, hobj, hk, hs] at h
          | some href =>
              cases openOk <;>
                simp [App.handle_browser_open, hobj, hk, hs] at h <;>
                exact h.1.symm
        · simp [App.handle_browser_open, hobj, hk] at h
          exact h.1.symm
  · intro temp href hobj hs hk
    constructor <;> simp [App.handle_browser_open, hobj, hk, hs]

/-- Witness for claim C8 amended at a concrete input: the abort condition is
met by a numeric href. -/
theorem claim_C8_witness :
    app0.handle_browser_open (Json.obj [("href", Json.num 5)]) false = none :=
  (claim_C8_amended app0 (Json.obj [("href", Json.num 5)]) false).1.mpr rfl

/-- Claim C10: when handle_user_event_msg receives a drag event whose payload
reports files, the recorded native file-hover event of that window is
unwrapped — if none was ever recorded the process aborts (none); and when the
recorded event is neither hovered nor dropped (cancelled), the replayed event
carries an empty file-path list rather than the payload files. -/
theorem claim_C10_drag_requires_hover (s : App) (id : Nat) (params : Json)
    (el : Nat) (n : String) (b : Bool) (view : WebviewInstance)
    (hp : parseHtmlEvent params =
      some { element := el, name := n, bubbles := b, data := .drag true })
    (hw : findWindow s.webviews id = some view) :
    (view.desktop_context.fileHover = none → s.handle_user_event_msg params id = none) ∧
    (view.desktop_context.fileHover = some .cancelled →
      s.handle_user_event_msg params id = some
        ({ s with webviews := (setWindow s.webviews id
            { view with
              dom := (view.dom.handle_event
                { name := n, element := el, bubbles := b
                  payload := .fileDrag [] }).render_immediate,
              desktop_context := view.desktop_context.send_edits }) }, [])) := by
  constructor
  · intro hh
    simp [App.handle_user_event_msg, hp, hw, hh]
  · intro hh
    simp [App.handle_user_event_msg, hp, hw, hh]

/-- A desktop context whose most recent file-hover record is cancelled. -/
def ctxCancel : DesktopContext :=
  { queryResults := [], editsSent := 0, stylesheetKicks := 0, fileHover := some .cancelled }

/-- A render-surface instance with a cancelled file-hover record. -/
def viewCancel : WebviewInstance := { dom := dom0, desktop_context := ctxCancel }

/-- A driver state with one window whose hover record is cancelled. -/
def appCancel : App :=
  { control_flow := .wait, window_behavior := .LastWindowExitsApp
    is_visible_before_start := true, webviews := [(1, viewCancel)] }

/-- A well-formed user_event params value: a drag event reporting files. -/
def dragParams : Json :=
  .obj [("element", .num 3), ("name", .str "drop"), ("bubbles", .bool true),
        ("data", .obj [("drag_has_files", .bool true)])]

/-- Witness for claim C10 at a concrete input: a cancelled hover record makes
the replayed drag event carry an empty file list. -/
theorem claim_C10_witness :
    appCancel.handle_user_event_msg dragParams 1 = some
      ({ appCancel with webviews := (setWindow appCancel.webviews 1
          { viewCancel with
            dom := (viewCancel.dom.handle_event
              { name := "drop", element := 3, bubbles := true
                payload := .fileDrag [] }).render_immediate,
            desktop_context := viewCancel.desktop_context.send_edits }) }, []) :=
  (claim_C10_drag_requires_hover appCancel 1 dragParams 3 "drop" true viewCancel rfl rfl).2 rfl
